import Mathlib

/-!
Verification development for the maq repository.

The repository ships a Next.js frontend (under src) together with a
specification of a RAG retrieval core (embedding store, knowledge-graph
store, retriever, context assembler, chat orchestrator) whose
implementation is not part of this source set.  Definitions for the
retrieval core are therefore modelled from the spec, while all frontend
behaviour (api client, quote-generation fallback route, visitor socket
server) is embedded from the TypeScript/JavaScript sources.
-/

namespace Maq

/- ===================== Retrieval-core data model ===================== -/

/-- Modelled from the spec: a document chunk owned by the Embedding Store
(spec section 3).  Embeddings are exact rationals in the model. -/
structure DocumentChunk where
  id : String
  source_ref : String
  text : String
  embedding : List ℚ
deriving DecidableEq, Repr

/-- Modelled from the spec: a knowledge-graph entity (spec section 3). -/
structure Entity where
  id : String
  etype : String
  attributes : List (String × String)
deriving DecidableEq, Repr

/-- Modelled from the spec: a directed, typed knowledge-graph edge
(spec section 3); the graph may contain cycles. -/
structure Relation where
  from_entity_id : String
  to_entity_id : String
  relation_type : String
deriving DecidableEq, Repr

/-- Modelled from the spec: the per-query retrieval payload
(spec section 3). -/
structure RetrievalResult where
  chunks : List DocumentChunk
  entities : List Entity
  relations : List Relation
deriving DecidableEq, Repr

/-- One rendered context section, carrying its measured token count. -/
structure ContextSection where
  text : String
  tokens : Nat
deriving DecidableEq, Repr

/-- Modelled from the spec: the assembled context block (spec section 3). -/
structure AssembledContext where
  text : String
  token_count : Nat
  truncated : Bool
deriving DecidableEq, Repr

/-- Token counting rule of the model: number of nonempty
whitespace-separated words.  The spec leaves the tokenizer open but
requires one fixed measured rule (spec section 9). -/
def countTokens (s : String) : Nat :=
  ((s.splitOn " ").filter (fun w => !w.isEmpty)).length

def toSection (s : String) : ContextSection :=
  ⟨s, countTokens s⟩

def renderChunkText (c : DocumentChunk) : String :=
  "[" ++ c.source_ref ++ "] " ++ c.text

def renderEntityText (e : Entity) : String :=
  e.etype ++ " " ++ e.id ++
    String.join (e.attributes.map (fun a => " " ++ a.1 ++ "=" ++ a.2))

def renderRelationText (r : Relation) : String :=
  r.from_entity_id ++ " " ++ r.relation_type ++ " " ++ r.to_entity_id

/-- Modelled from the spec: chunks first in relevance order, then entity
facts, then relation facts (spec section 4.4). -/
def renderSections (r : RetrievalResult) : List ContextSection :=
  r.chunks.map (fun c => toSection (renderChunkText c))
    ++ r.entities.map (fun e => toSection (renderEntityText e))
    ++ r.relations.map (fun x => toSection (renderRelationText x))

/-- Modelled from the spec: greedy whole-section accumulation; the first
section that would push the running token count past the budget is
dropped together with every later section, and dropping anything sets
the truncation flag (spec section 4.4). -/
def assembleGo (budget : Nat) : List ContextSection → Nat → List ContextSection × Bool
  | [], _ => ([], false)
  | s :: rest, used =>
    if used + s.tokens ≤ budget then
      let r := assembleGo budget rest (used + s.tokens)
      (s :: r.1, r.2)
    else ([], true)

def sumTokens (l : List ContextSection) : Nat :=
  (l.map ContextSection.tokens).sum

/-- Modelled from the spec: the Context Assembler entry point
(spec section 4.4); never fails, worst case returns an empty context. -/
def assemble (r : RetrievalResult) (budget : Nat) : AssembledContext :=
  let g := assembleGo budget (renderSections r) 0
  { text := String.intercalate "\n" (g.1.map ContextSection.text)
    token_count := sumTokens g.1
    truncated := g.2 }

/- ===================== Embedding Store ===================== -/

/-- Modelled from the spec: error taxonomy of the Embedding Store
(spec sections 4.1 and 7). -/
inductive StoreError where
  | indexNotBuilt
  | dimensionMismatch
deriving DecidableEq, Repr

/-- Modelled from the spec: the built vector index; chunks are kept in
insertion order (spec section 4.1). -/
structure EmbeddingStore where
  dim : Nat
  chunks : List DocumentChunk
deriving DecidableEq, Repr

/-- Modelled from the spec: building replaces the index wholesale. -/
def build (dim : Nat) (chunks : List DocumentChunk) : EmbeddingStore :=
  ⟨dim, chunks⟩

/-- Squared L2 distance between a query and a stored embedding. -/
def sqDist (q e : List ℚ) : ℚ :=
  ((q.zip e).map (fun p => (p.1 - p.2) * (p.1 - p.2))).sum

/-- A search candidate: insertion index, chunk, and distance to the query. -/
abbrev Ranked := Nat × DocumentChunk × ℚ

/-- Ranking order of search results: ascending distance, ties broken by
chunk insertion order (spec section 4.1). -/
def rankLe (a b : Ranked) : Prop :=
  a.2.2 < b.2.2 ∨ (a.2.2 = b.2.2 ∧ a.1 ≤ b.1)

instance : DecidableRel rankLe := fun a b =>
  inferInstanceAs (Decidable (a.2.2 < b.2.2 ∨ (a.2.2 = b.2.2 ∧ a.1 ≤ b.1)))

instance : IsTotal Ranked rankLe := by
  constructor
  intro a b
  rcases lt_trichotomy a.2.2 b.2.2 with h | h | h
  · exact Or.inl (Or.inl h)
  · rcases Nat.le_total a.1 b.1 with hn | hn
    · exact Or.inl (Or.inr ⟨h, hn⟩)
    · exact Or.inr (Or.inr ⟨h.symm, hn⟩)
  · exact Or.inr (Or.inl h)

instance : IsTrans Ranked rankLe := by
  constructor
  intro a b c hab hbc
  rcases hab with hab | ⟨hab, ha⟩
  · rcases hbc with hbc | ⟨hbc, _⟩
    · exact Or.inl (hab.trans hbc)
    · exact Or.inl (hbc ▸ hab)
  · rcases hbc with hbc | ⟨hbc, hb⟩
    · exact Or.inl (hab ▸ hbc)
    · exact Or.inr ⟨hab.trans hbc, ha.trans hb⟩

/-- All chunks of the store scored against a query, tagged with their
insertion index. -/
def scoredChunks (st : EmbeddingStore) (q : List ℚ) : List Ranked :=
  st.chunks.enum.map (fun p => (p.1, p.2, sqDist q p.2.embedding))

/-- Modelled from the spec: search over a built index, returning the top
k candidates with their insertion indices (spec section 4.1). -/
def searchRanked (st : EmbeddingStore) (q : List ℚ) (k : Nat) :
    Except StoreError (List Ranked) :=
  if q.length = st.dim then
    .ok ((List.insertionSort rankLe (scoredChunks st q)).take k)
  else
    .error .dimensionMismatch

/-- Modelled from the spec: the public search operation; fails when the
index has not been built or when the query dimensionality differs
(spec section 4.1). -/
def search (store : Option EmbeddingStore) (q : List ℚ) (k : Nat) :
    Except StoreError (List (DocumentChunk × ℚ)) :=
  match store with
  | none => .error .indexNotBuilt
  | some st => (searchRanked st q k).map (fun l => l.map (fun x => (x.2.1, x.2.2)))

def chunkA : DocumentChunk := ⟨"A", "srcA", "doc A", [(1 : ℚ)/10]⟩

def chunkB : DocumentChunk := ⟨"B", "srcB", "doc B", [(3 : ℚ)/10]⟩

def demoStore : EmbeddingStore := ⟨1, [chunkA, chunkB]⟩

/- ===================== Knowledge Graph Store ===================== -/

/-- Modelled from the spec: error raised by entity lookup
(spec sections 4.2 and 7). -/
inductive GraphError where
  | entityNotFound
deriving DecidableEq, Repr

/-- Modelled from the spec: the graph of business entities and their
typed directed relations (spec section 4.2); may be cyclic. -/
structure KnowledgeGraph where
  entities : List Entity
  relations : List Relation
deriving DecidableEq, Repr

/-- Modelled from the spec: entity lookup, failing when absent
(spec section 4.2). -/
def lookup (g : KnowledgeGraph) (i : String) : Except GraphError Entity :=
  match g.entities.find? (fun e => e.id == i) with
  | some e => .ok e
  | none => .error .entityNotFound

/-- Modelled from the spec: category-level query (spec section 4.2). -/
def find_by_type (g : KnowledgeGraph) (t : String) : List Entity :=
  g.entities.filter (fun e => e.etype == t)

/-- Successor ids of one node, optionally restricted to a relation type. -/
def succIds (g : KnowledgeGraph) (rt : Option String) (x : String) : List String :=
  (g.relations.filter (fun r =>
      r.from_entity_id == x &&
        match rt with
        | none => true
        | some t => r.relation_type == t)).map Relation.to_entity_id

/-- One traversal round: the successors of the frontier that are not yet
visited, without duplicates. -/
def bfsNext (g : KnowledgeGraph) (rt : Option String)
    (frontier visited : List String) : List String :=
  (((frontier.map (succIds g rt)).flatten).filter
    (fun y => decide (y ∉ visited))).dedup

/-- Modelled from the spec: breadth-first traversal with a visited set,
bounded by the remaining depth; newly discovered nodes are the
successors of the frontier that have not been visited yet
(spec sections 4.2 and 9). -/
def bfsAux (g : KnowledgeGraph) (rt : Option String) :
    Nat → List String → List String → List String
  | 0, _, visited => visited
  | Nat.succ d, frontier, visited =>
    bfsAux g rt d (bfsNext g rt frontier visited)
      (visited ++ bfsNext g rt frontier visited)

/-- Modelled from the spec: ids reachable from the start entity within
the depth bound, the start entity itself excluded (spec section 4.2). -/
def neighborIds (g : KnowledgeGraph) (e : String) (rt : Option String)
    (maxDepth : Nat) : List String :=
  (bfsAux g rt maxDepth [e] [e]).filter (fun x => decide (x ≠ e))

/-- Modelled from the spec: the neighbor set as entities
(spec section 4.2). -/
def neighbors (g : KnowledgeGraph) (e : String) (rt : Option String)
    (maxDepth : Nat) : List Entity :=
  (neighborIds g e rt maxDepth).filterMap
    (fun i => g.entities.find? (fun x => x.id == i))

def entA : Entity := ⟨"A", "service", []⟩

def entB : Entity := ⟨"B", "service", []⟩

/-- The two-node cyclic graph of the spec scenario (spec section 8). -/
def cycleGraph : KnowledgeGraph :=
  ⟨[entA, entB], [⟨"A", "B", "bundled_with"⟩, ⟨"B", "A", "bundled_with"⟩]⟩

/- ===================== Retriever ===================== -/

/-- Modelled from the spec: failure of the external embedding function
(spec section 4.3). -/
inductive EmbedError where
  | failure
deriving DecidableEq, Repr

/-- Character-list version of string prefix. -/
def prefixB : List Char → List Char → Bool
  | [], _ => true
  | _ :: _, [] => false
  | a :: as, b :: bs => a == b && prefixB as bs

/-- Character-list version of substring containment. -/
def infixB (sub : List Char) : List Char → Bool
  | [] => prefixB sub []
  | b :: bs => prefixB sub (b :: bs) || infixB sub bs

/-- Substring test, the model of the JavaScript String.includes. -/
def containsSub (s sub : String) : Bool :=
  infixB sub.toList s.toList

/-- ASCII lower-casing over the character list, the model of the
JavaScript toLowerCase for the ASCII prompts involved here. -/
def toLowerStr (s : String) : String :=
  String.mk (s.data.map Char.toLower)

/-- Whitespace trim over the character list, the model of the JavaScript
String.trim. -/
def trimStr (s : String) : String :=
  String.mk
    (((s.data.dropWhile Char.isWhitespace).reverse.dropWhile
        Char.isWhitespace).reverse)

/-- Keep the first entity for each id, dropping later duplicates. -/
def dedupByIdAux : List Entity → List String → List Entity
  | [], _ => []
  | e :: rest, seen =>
    if seen.contains e.id then dedupByIdAux rest seen
    else e :: dedupByIdAux rest (e.id :: seen)

/-- Modelled from the spec: candidate entity mentions found by simple
keyword match of entity ids against the query text (spec section 4.3). -/
def mentionedEntities (g : KnowledgeGraph) (q : String) : List Entity :=
  g.entities.filter (fun e => containsSub q e.id)

/-- Modelled from the spec: mentioned entities plus their neighbors up to
depth 2, deduplicated by id and capped at topN (spec section 4.3). -/
def graphEntityRetrieve (g : KnowledgeGraph) (q : String) (topN : Nat) :
    List Entity :=
  let m := mentionedEntities g q
  (dedupByIdAux (m ++ ((m.map (fun e => neighbors g e.id none 2)).flatten)) []).take topN

/-- Relations whose both endpoints are among the retrieved entities. -/
def graphRelations (g : KnowledgeGraph) (ents : List Entity) : List Relation :=
  g.relations.filter (fun r =>
    ents.any (fun e => e.id == r.from_entity_id) &&
      ents.any (fun e => e.id == r.to_entity_id))

/-- Modelled from the spec: the Retriever (spec section 4.3).  A failing
embedding function or a failing Embedding Store search degrades to an
empty chunk list; graph retrieval always proceeds.  The function is
total: retrieval-layer faults never escape it. -/
def retrieve (store : Option EmbeddingStore)
    (embed : String → Except EmbedError (List ℚ)) (g : KnowledgeGraph)
    (q : String) (topK topN : Nat) : RetrievalResult :=
  let ents := graphEntityRetrieve g q topN
  let chunks :=
    match embed q with
    | .error _ => []
    | .ok emb =>
      match search store emb topK with
      | .error _ => []
      | .ok res => res.map Prod.fst
  ⟨chunks, ents, graphRelations g ents⟩

/- ===================== Chat Orchestrator ===================== -/

/-- Modelled from the spec: the states of one chat turn
(spec section 4.6). -/
inductive TurnState where
  | Idle
  | Retrieving
  | Assembling
  | Prompting
  | Generating
  | Completed
  | Failed
deriving DecidableEq, Repr

/-- Modelled from the spec: the events driving a turn (spec section 4.6). -/
inductive TurnEvent where
  | userMessage
  | retrievalDone
  | contextAssembled
  | promptBuilt
  | promptTooLarge
  | llmResponded
  | llmFailed
deriving DecidableEq, Repr, Fintype

/-- Modelled from the spec: the transition function of the turn state
machine; absent pairs have no transition, so Failed (and Completed) are
terminal for the turn (spec section 4.6). -/
def turnStep : TurnState → TurnEvent → Option TurnState
  | .Idle, .userMessage => some .Retrieving
  | .Retrieving, .retrievalDone => some .Assembling
  | .Assembling, .contextAssembled => some .Prompting
  | .Prompting, .promptBuilt => some .Generating
  | .Prompting, .promptTooLarge => some .Failed
  | .Generating, .llmResponded => some .Completed
  | .Generating, .llmFailed => some .Failed
  | _, _ => none

/-- Modelled from the spec: prompt-assembly failure (spec section 4.5). -/
inductive PromptError where
  | promptTooLarge
deriving DecidableEq, Repr

/-- Modelled from the spec: LLM Client failures (spec section 7). -/
inductive LLMError where
  | timeout
  | unavailable
deriving DecidableEq, Repr

/-- Modelled from the spec: the LLM call with a bounded retry budget;
attempt i is the outcome of the i-th call (spec section 5). -/
def runLLM (attempt : Nat → Except LLMError String) :
    Nat → Nat → Except LLMError String
  | i, 0 => attempt i
  | i, Nat.succ r =>
    match attempt i with
    | .ok s => .ok s
    | .error _ => runLLM attempt (i + 1) r

/-- Modelled from the spec: the sequence of states one turn passes
through, as a function of the prompt-build outcome and the LLM attempt
outcomes (spec section 4.6).  Retrieval and assembly never fail the
turn, so every trace reaches Prompting. -/
def turnTrace (promptRes : Except PromptError String)
    (attempt : Nat → Except LLMError String) (retryBudget : Nat) :
    List TurnState :=
  [.Idle, .Retrieving, .Assembling, .Prompting] ++
    match promptRes with
    | .error _ => [.Failed]
    | .ok _ =>
      .Generating ::
        (match runLLM attempt 0 retryBudget with
         | .ok _ => [.Completed]
         | .error _ => [.Failed])

/-- Modelled from the spec: one full turn, retrieval included; the
prompt builder sees whatever the (possibly degraded) retriever
produced. -/
def runTurn (store : Option EmbeddingStore)
    (embed : String → Except EmbedError (List ℚ)) (g : KnowledgeGraph)
    (q : String) (topK topN : Nat)
    (promptOf : RetrievalResult → Except PromptError String)
    (attempt : Nat → Except LLMError String) (retryBudget : Nat) :
    List TurnState :=
  turnTrace (promptOf (retrieve store embed g q topK topN)) attempt retryBudget

/-- Modelled from the spec: a session is the list of traces of the turns
run on it; failures are turn-scoped, the session keeps accepting
messages (spec section 4.6). -/
structure SessionState where
  turnTraces : List (List TurnState)
deriving DecidableEq, Repr

/-- Modelled from the spec: a new user message starts a fresh turn from
Idle and appends its trace to the session. -/
def sessionSendMessage (s : SessionState)
    (promptRes : Except PromptError String)
    (attempt : Nat → Except LLMError String) (retryBudget : Nat) :
    SessionState :=
  ⟨s.turnTraces ++ [turnTrace promptRes attempt retryBudget]⟩

/- ===================== Frontend: chat api client ===================== -/

/-- The request path used by api.sendChat in src/frontend/lib/api.ts
(both file variants): apiFetch is called with the literal
/api/chat/chat. -/
def sendChatPath : String := "/api/chat/chat"

/-- The JSON body sent for one chat turn; a field holding none is absent
from the serialized body (JSON.stringify drops undefined members). -/
structure ChatRequestBody where
  content : String
  chat_id : Option String
deriving DecidableEq, Repr

/-- The member names present in the serialized request body. -/
def bodyKeys (b : ChatRequestBody) : List String :=
  match b.chat_id with
  | some _ => ["content", "chat_id"]
  | none => ["content"]

structure ChatRequest where
  method : String
  path : String
  body : ChatRequestBody
deriving DecidableEq, Repr

/-- Embeds api.sendChat (src/frontend/lib/api.ts, lines 181-192): a POST
of the payload to sendChatPath. -/
def sendChat (payload : ChatRequestBody) : ChatRequest :=
  ⟨"POST", sendChatPath, payload⟩

/-- Embeds sendChatToBackend (src/unnamed/part_007, lines 323-328, and
src/frontend/app/chat/page.tsx): the chat_id member is added only for a
truthy chatId, so the empty string and a missing id both leave it out. -/
def sendChatToBackend (text : String) (chatId : Option String) : ChatRequest :=
  sendChat
    ⟨text,
      match chatId with
      | some c => if c.isEmpty then none else some c
      | none => none⟩

/-- The response fields the frontend chat pages read from the chat
endpoint; each is optional because the response arrives as untyped
JSON. -/
structure ChatResponse where
  content : Option String
  session_id : Option String
  session_uuid : Option String
  quote : Option String
  user_info : Option String
deriving DecidableEq, Repr

/-- The assistant message the chat page appends after a turn. -/
structure AssistantMessage where
  content : Option String
  quote : Option String
deriving DecidableEq, Repr

/-- Embeds handleSendMessage (src/unnamed/part_007, lines 349-417): the
guard returns early on blank input or a missing session; otherwise the
turn sends the message with the current session as chat_id, appends an
assistant message built from the content and quote fields of the
response, and switches sessions when the response carries a session_id
not already known. -/
def handleSendMessage (inputValue : String) (currentSession : Option String)
    (sessionIds : List String) (resp : ChatResponse) :
    Option (ChatRequest × AssistantMessage × Option String) :=
  if (trimStr inputValue).isEmpty then none
  else
    match currentSession with
    | none => none
    | some cs =>
      if cs.isEmpty then none
      else
        let req := sendChat ⟨inputValue, some cs⟩
        let msg : AssistantMessage := ⟨resp.content, resp.quote⟩
        let newSession :=
          match resp.session_id with
          | some sid =>
            if !sid.isEmpty && !(sessionIds.contains sid) then some sid else none
          | none => none
        some (req, msg, newSession)

/-- Embeds handleSendMessage (src/frontend/app/chat/page.tsx, lines
519-565): the reply text falls back to a stock string when the content
field is falsy, and the session id is taken from the session_uuid field
of the response, falling back to the current session. -/
def handleSendMessageV2 (inputValue : String) (currentSession : Option String)
    (resp : ChatResponse) : Option (ChatRequest × String × String) :=
  if (trimStr inputValue).isEmpty then none
  else
    match currentSession with
    | none => none
    | some cs =>
      if cs.isEmpty then none
      else
        let req := sendChatToBackend inputValue (some cs)
        let replyText :=
          match resp.content with
          | some c => if c.isEmpty then "No response." else c
          | none => "No response."
        let backendSessionId :=
          match resp.session_uuid with
          | some s => if s.isEmpty then cs else s
          | none => cs
        some (req, replyText, backendSessionId)

/- ===================== Frontend: apiFetch URL routing ===================== -/

def defaultBackendBase : String := "https://lumina-nbzx.onrender.com"

/-- Character-list model of the JavaScript String.startsWith. -/
def startsWithStr (s pre : String) : Bool :=
  prefixB pre.toList s.toList

/-- Character-list model of the JavaScript String.endsWith. -/
def endsWithStr (s suf : String) : Bool :=
  prefixB suf.toList.reverse s.toList.reverse

/-- Embeds getBaseUrl (src/frontend/lib/api.ts, lines 2-9, first
variant): the configured backend base, or the production default, with
exactly one trailing slash ensured. -/
def getBaseUrl (env : Option String) : String :=
  let base := env.getD defaultBackendBase
  if endsWithStr base "/" then base else base ++ "/"

/-- The leading-slash strip performed on relative paths
(path.replace of leading slashes in the first apiFetch variant). -/
def dropLeadingSlashes (s : String) : String :=
  String.mk (s.toList.dropWhile (fun c => c == '/'))

/-- Embeds the URL computation of the first apiFetch variant
(src/frontend/lib/api.ts, lines 22-27).  Resolution of the stripped
relative path against the slash-terminated base (the new URL call of
the source) is modelled as appending it to the base, which is the
resolution result for scheme-less relative paths. -/
def apiFetchUrlV1 (env : Option String) (path : String) : String :=
  if startsWithStr path "http" then path
  else getBaseUrl env ++ dropLeadingSlashes path

def apiBaseV2 (env : Option String) : String :=
  env.getD "http://localhost:8000"

/-- Embeds the URL computation of the second apiFetch variant
(src/frontend/lib/api.ts, lines 208-212): absolute URLs pass through,
paths starting with /api/ stay frontend-local, everything else is
prefixed with the backend base. -/
def apiFetchUrlV2 (env : Option String) (path : String) : String :=
  if startsWithStr path "http" then path
  else if startsWithStr path "/api/" then path
  else apiBaseV2 env ++ path

/- ===================== Frontend: quote generation fallback ===================== -/

structure QuoteItem where
  description : String
  quantity : Nat
  rate : Nat
  amount : Nat
deriving DecidableEq, Repr

def webItems : List QuoteItem :=
  [⟨"Web Development", 1, 2500, 2500⟩,
   ⟨"Responsive Design", 1, 800, 800⟩,
   ⟨"Testing & QA", 1, 500, 500⟩]

def mobileItems : List QuoteItem :=
  [⟨"Mobile App Development", 1, 4000, 4000⟩,
   ⟨"UI/UX Design", 1, 1200, 1200⟩,
   ⟨"App Store Deployment", 1, 300, 300⟩]

def designItems : List QuoteItem :=
  [⟨"UI/UX Design", 1, 1500, 1500⟩,
   ⟨"Branding & Logo", 1, 800, 800⟩,
   ⟨"Design System", 1, 1000, 1000⟩]

def defaultItems : List QuoteItem :=
  [⟨"Initial consultation", 1, 150, 150⟩,
   ⟨"Project development", 20, 100, 2000⟩,
   ⟨"Testing and deployment", 5, 120, 600⟩]

/-- Embeds generateQuoteItems
(src/frontend/app/api/quotes/generate/route.ts, lines 45-74). -/
def generateQuoteItems (p : String) : List QuoteItem :=
  let t := toLowerStr p
  if containsSub t "web" || containsSub t "website" then webItems
  else if containsSub t "mobile" || containsSub t "app" then mobileItems
  else if containsSub t "design" then designItems
  else defaultItems

/-- Math.round on an exact rational: round half away from zero is round
half up for the nonnegative values reachable here.  Every subtotal the
fallback route can produce is a multiple of 10, so the double product
subtotal * 0.1 of the source rounds to the same integer as the exact
rational. -/
def jsRound (q : ℚ) : Int :=
  ⌊q + 1/2⌋

structure GeneratedQuote where
  title : String
  items : List QuoteItem
  subtotal : Nat
  tax : Int
  total : Int
  terms : String
  has_watermark : Bool
  can_edit : Bool
deriving DecidableEq, Repr

/-- Embeds the quote construction of the fallback branch
(src/frontend/app/api/quotes/generate/route.ts, lines 76-92). -/
def mkFallbackQuote (prompt userRole : String) : GeneratedQuote :=
  let items := generateQuoteItems prompt
  let subtotal : Nat := items.foldl (fun s i => s + i.amount) 0
  let tax := jsRound ((subtotal : ℚ) * (1/10))
  { title := "Quote for: " ++ prompt.take 50 ++ "..."
    items := items
    subtotal := subtotal
    tax := tax
    total := (subtotal : Int) + tax
    terms := "Payment due within 30 days"
    has_watermark := userRole == "normal"
    can_edit := userRole == "premium" }

/-- The two response shapes of the fallback branch. -/
inductive FallbackResponse where
  | limitReached (status : Nat) (err : String) (quotesLimit : Nat)
  | success (status : Nat) (message : String) (quote : GeneratedQuote)
      (quotesUsedAfter : Int)
deriving DecidableEq, Repr

/-- Embeds the fallback branch of POST /api/quotes/generate
(src/frontend/app/api/quotes/generate/route.ts, lines 28-103), entered
when forwarding to the backend throws; the parsed request body fields
are its inputs. -/
def quotesGenerateFallback (prompt userRole : String) (quotesUsed : Int) :
    FallbackResponse :=
  if userRole = "normal" ∧ 5 ≤ quotesUsed then
    .limitReached 429 "Quote limit reached" 5
  else
    .success 200 "Quote generated successfully" (mkFallbackQuote prompt userRole)
      (quotesUsed + 1)

/- ===================== Frontend: visitor socket server ===================== -/

structure PageStat where
  page : String
  views : Nat
deriving DecidableEq, Repr

structure Visitor where
  vid : String
  timestamp : Nat
  location : String
  userAgent : String
  page : String
deriving DecidableEq, Repr

structure VisitorData where
  totalVisitors : Nat
  activeVisitors : Nat
  todayVisitors : Nat
  pageViews : Nat
  averageSessionTime : String
  topPages : List PageStat
  recentVisitors : List Visitor
deriving DecidableEq, Repr

/-- The comparator of the topPages sort in src/frontend/server.js,
line 109: descending views. -/
def pageGe (a b : PageStat) : Prop :=
  b.views ≤ a.views

instance : DecidableRel pageGe := fun a b =>
  inferInstanceAs (Decidable (b.views ≤ a.views))

instance : IsTotal PageStat pageGe :=
  ⟨fun a b => (Nat.le_total b.views a.views).imp id id⟩

instance : IsTrans PageStat pageGe :=
  ⟨fun _ _ _ hab hbc => Nat.le_trans hbc hab⟩

/-- Embeds the find-and-increment-or-push step of the pageView handler
(src/frontend/server.js, lines 101-106): the first entry for the page
gets one more view, otherwise a fresh entry is appended. -/
def bumpPage : List PageStat → String → List PageStat
  | [], p => [⟨p, 1⟩]
  | s :: rest, p =>
    if s.page = p then { s with views := s.views + 1 } :: rest
    else s :: bumpPage rest p

/-- Embeds the pageView handler (src/frontend/server.js, lines 97-126):
bump the visited page, re-sort by views and keep ten entries, and push
the new visitor in front keeping ten entries. -/
def handlePageView (v : VisitorData) (page userAgent socketId location : String)
    (now : Nat) : VisitorData :=
  { v with
    pageViews := v.pageViews + 1
    topPages := (List.insertionSort pageGe (bumpPage v.topPages page)).take 10
    recentVisitors :=
      (⟨socketId, now, location, userAgent, page⟩ :: v.recentVisitors).take 10 }

/-- Embeds the demo-visitor interval updater (src/frontend/server.js,
lines 162-181): unshift one random visitor, keep ten, bump counters. -/
def demoTick (v : VisitorData) (visitor : Visitor) : VisitorData :=
  { v with
    recentVisitors := (visitor :: v.recentVisitors).take 10
    todayVisitors := v.todayVisitors + 1
    totalVisitors := v.totalVisitors + 1
    pageViews := v.pageViews + 1 }

/-- Embeds the resetStats handler (src/frontend/server.js, lines
129-148). -/
def resetStats (active : Nat) : VisitorData :=
  ⟨0, active, 0, 0, "0:00", [], []⟩

/-- Embeds the connection and disconnect handlers (src/frontend/server.js,
lines 72-77 and 150-158), which only rewrite the active-visitor count. -/
def setActiveVisitors (v : VisitorData) (active : Nat) : VisitorData :=
  { v with activeVisitors := active }

/-- The bounds claimed for the visitor store: topPages sorted by
non-increasing views with at most ten entries, and at most ten recent
visitors. -/
def visitorInv (v : VisitorData) : Prop :=
  v.topPages.Pairwise pageGe ∧ v.topPages.length ≤ 10 ∧
    v.recentVisitors.length ≤ 10

/- ===================== Theorems ===================== -/

theorem sumTokens_nil : sumTokens [] = 0 := rfl

theorem sumTokens_cons (s : ContextSection) (l : List ContextSection) :
    sumTokens (s :: l) = s.tokens + sumTokens l := by
  simp [sumTokens]

theorem assembleGo_le (budget : Nat) :
    ∀ (secs : List ContextSection) (used : Nat), used ≤ budget →
      used + sumTokens (assembleGo budget secs used).1 ≤ budget := by
  intro secs
  induction secs with
  | nil =>
    intro used h
    simpa [assembleGo, sumTokens] using h
  | cons s rest ih =>
    intro used h
    by_cases hc : used + s.tokens ≤ budget
    · have hr := ih (used + s.tokens) hc
      simp only [assembleGo, if_pos hc, sumTokens_cons]
      omega
    · simp [assembleGo, if_neg hc, sumTokens]
      exact h

theorem assembleGo_take (budget : Nat) :
    ∀ (secs : List ContextSection) (used : Nat),
      ∃ n, (assembleGo budget secs used).1 = secs.take n ∧
        ((assembleGo budget secs used).2 = true ↔ n < secs.length) ∧
        (n < secs.length → budget < used + sumTokens (secs.take (n + 1))) := by
  intro secs
  induction secs with
  | nil =>
    intro used
    exact ⟨0, by simp [assembleGo], by simp [assembleGo], by simp⟩
  | cons s rest ih =>
    intro used
    by_cases hc : used + s.tokens ≤ budget
    · obtain ⟨n, h1, h2, h3⟩ := ih (used + s.tokens)
      refine ⟨n + 1, ?_, ?_, ?_⟩
      · simp [assembleGo, if_pos hc, h1]
      · simp only [assembleGo, if_pos hc, List.length_cons]
        rw [h2]
        omega
      · intro h
        have h4 := h3 (by simp only [List.length_cons] at h; omega)
        rw [List.take_succ_cons, sumTokens_cons]
        omega
    · refine ⟨0, by simp [assembleGo, if_neg hc], ?_, ?_⟩
      · simp only [assembleGo, if_neg hc]
        simp
      · intro _
        simp only [List.take_succ_cons, List.take_zero, sumTokens_cons,
          sumTokens_nil]
        omega

theorem take_ne_of_lt_length {α : Type} (l : List α) (n : Nat)
    (h : n < l.length) : l.take n ≠ l := by
  intro he
  have : (l.take n).length = l.length := by rw [he]
  rw [List.length_take] at this
  omega

/-- Claim C2: assemble stays within the token budget, accumulates whole
sections in order, drops the first over-budget section together with
all later ones, and reports truncation exactly when something was
dropped; in particular with budget 50 and sections of 30 and 40 tokens
only the first section survives, with the truncation flag set. -/
theorem c2_assemble_spec (r : RetrievalResult) (budget : Nat) :
    (assemble r budget).token_count ≤ budget ∧
    ((assemble r budget).truncated = true ↔
      (assembleGo budget (renderSections r) 0).1 ≠ renderSections r) ∧
    (∃ n, (assembleGo budget (renderSections r) 0).1 = (renderSections r).take n ∧
      (n < (renderSections r).length →
        budget < sumTokens ((renderSections r).take (n + 1)))) ∧
    assembleGo 50 [⟨"A", 30⟩, ⟨"B", 40⟩] 0 = ([⟨"A", 30⟩], true) := by
  obtain ⟨n, h1, h2, h3⟩ := assembleGo_take budget (renderSections r) 0
  refine ⟨?_, ?_, ⟨n, h1, fun h => by simpa using h3 h⟩, by decide⟩
  · have := assembleGo_le budget (renderSections r) 0 (Nat.zero_le _)
    simpa [assemble] using this
  · show (assembleGo budget (renderSections r) 0).2 = true ↔ _
    rw [h2, h1]
    constructor
    · intro h
      exact take_ne_of_lt_length _ _ h
    · intro h
      by_contra hn
      push_neg at hn
      exact h (List.take_of_length_le hn)

/-- Witness for C2 at a concrete retrieval result and budget. -/
theorem c2_assemble_witness :
    (assemble ⟨[], [], []⟩ 50).token_count ≤ 50 ∧
    assembleGo 50 [⟨"A", 30⟩, ⟨"B", 40⟩] 0 = ([⟨"A", 30⟩], true) :=
  ⟨(c2_assemble_spec ⟨[], [], []⟩ 50).1, (c2_assemble_spec ⟨[], [], []⟩ 50).2.2.2⟩

theorem scoredChunks_fst_pairwise (st : EmbeddingStore) (q : List ℚ) :
    (scoredChunks st q).Pairwise (fun a b => a.1 < b.1) := by
  have h1 : (st.chunks.enum.map Prod.fst).Pairwise (· < ·) := by
    rw [List.enum_map_fst]
    exact List.pairwise_lt_range _
  rw [List.pairwise_map] at h1
  unfold scoredChunks
  rw [List.pairwise_map]
  exact h1

theorem insertionSort_rank_pairwise (st : EmbeddingStore) (q : List ℚ) :
    (List.insertionSort rankLe (scoredChunks st q)).Pairwise
      (fun a b => a.2.2 < b.2.2 ∨ (a.2.2 = b.2.2 ∧ a.1 < b.1)) := by
  have hs : (List.insertionSort rankLe (scoredChunks st q)).Pairwise rankLe :=
    List.sorted_insertionSort rankLe _
  have hperm : List.Perm (List.insertionSort rankLe (scoredChunks st q))
      (scoredChunks st q) :=
    List.perm_insertionSort rankLe _
  have hne0 : (scoredChunks st q).Pairwise (fun a b : Ranked => a.1 ≠ b.1) :=
    (scoredChunks_fst_pairwise st q).imp (fun h => Nat.ne_of_lt h)
  have hne : (List.insertionSort rankLe (scoredChunks st q)).Pairwise
      (fun a b : Ranked => a.1 ≠ b.1) :=
    hperm.symm.pairwise hne0 (fun h => Ne.symm h)
  refine (hs.and hne).imp ?_
  rintro a b ⟨hab, hfst⟩
  rcases hab with h | ⟨he, hle⟩
  · exact Or.inl h
  · exact Or.inr ⟨he, lt_of_le_of_ne hle hfst⟩

/-- Claim C3: search on an unbuilt store fails with the index-not-built
error, a query of the wrong dimensionality fails with the
dimension-mismatch error, and a successful search returns at most k
results ordered by non-decreasing distance with ties broken by chunk
insertion order; on the two-chunk demo store with distances 1/100 and
9/100 and k equal to one the result is the closer chunk alone. -/
theorem c3_search_spec :
    (∀ (q : List ℚ) (k : Nat), search none q k = .error .indexNotBuilt) ∧
    (∀ (st : EmbeddingStore) (q : List ℚ) (k : Nat), q.length ≠ st.dim →
      search (some st) q k = .error .dimensionMismatch) ∧
    (∀ (st : EmbeddingStore) (q : List ℚ) (k : Nat) (l : List Ranked),
      searchRanked st q k = .ok l →
        l.length ≤ k ∧
        l.Pairwise (fun a b => a.2.2 < b.2.2 ∨ (a.2.2 = b.2.2 ∧ a.1 < b.1)) ∧
        search (some st) q k = .ok (l.map (fun x => (x.2.1, x.2.2)))) ∧
    search (some demoStore) [0] 1 = .ok [(chunkA, (1 : ℚ)/100)] := by
  refine ⟨fun q k => rfl, ?_, ?_, ?_⟩
  · intro st q k h
    simp [search, searchRanked, h, Except.map]
  · intro st q k l hl
    unfold searchRanked at hl
    by_cases hd : q.length = st.dim
    · rw [if_pos hd] at hl
      have hl2 : l = (List.insertionSort rankLe (scoredChunks st q)).take k := by
        cases hl
        rfl
      subst hl2
      refine ⟨List.length_take_le _ _, ?_, ?_⟩
      · exact List.Pairwise.sublist (List.take_sublist _ _)
          (insertionSort_rank_pairwise st q)
      · simp [search, searchRanked, if_pos hd, Except.map, List.map_take]
    · rw [if_neg hd] at hl
      exact absurd hl (by simp)
  · norm_num [search, searchRanked, demoStore, scoredChunks, chunkA, chunkB,
      sqDist, rankLe, List.insertionSort, List.orderedInsert, List.enum,
      List.enumFrom, Except.map]

/-- Witness for C3: the error cases and the ranked case at concrete
stores and queries. -/
theorem c3_search_witness :
    search none [0] 3 = .error .indexNotBuilt ∧
    search (some demoStore) [0, 0] 3 = .error .dimensionMismatch ∧
    search (some demoStore) [0] 1 = .ok [(chunkA, (1 : ℚ)/100)] :=
  ⟨c3_search_spec.1 [0] 3,
   c3_search_spec.2.1 demoStore [0, 0] 3 (by decide),
   c3_search_spec.2.2.2⟩

theorem bfsAux_nil_frontier (g : KnowledgeGraph) (rt : Option String) :
    ∀ (d : Nat) (visited : List String), bfsAux g rt d [] visited = visited := by
  intro d
  induction d with
  | zero => intro v; rfl
  | succ k ih =>
    intro v
    have h : bfsAux g rt (k + 1) [] v = bfsAux g rt k [] (v ++ []) := rfl
    rw [h, List.append_nil]
    exact ih v

theorem mem_bfsNext_not_visited (g : KnowledgeGraph) (rt : Option String)
    (frontier visited : List String) (a : String)
    (h : a ∈ bfsNext g rt frontier visited) : a ∉ visited := by
  unfold bfsNext at h
  have h2 := List.mem_dedup.mp h
  have h3 := (List.mem_filter.mp h2).2
  exact of_decide_eq_true h3

theorem bfsAux_nodup (g : KnowledgeGraph) (rt : Option String) :
    ∀ (d : Nat) (frontier visited : List String), visited.Nodup →
      (bfsAux g rt d frontier visited).Nodup := by
  intro d
  induction d with
  | zero => intro f v h; exact h
  | succ k ih =>
    intro f v h
    apply ih
    refine List.Nodup.append h (List.nodup_dedup _) ?_
    intro a ha hb
    exact mem_bfsNext_not_visited g rt f v a hb ha

/-- Claim C4: bounded-depth traversal of a possibly cyclic graph yields
a duplicate-free set of ids that never contains the start entity, and
on the two-node cycle the answer is the single other node at every
positive depth; at depth five the neighbor entities of A are exactly B. -/
theorem c4_neighbors_spec :
    (∀ (g : KnowledgeGraph) (e : String) (rt : Option String) (d : Nat),
      (neighborIds g e rt d).Nodup ∧ e ∉ neighborIds g e rt d) ∧
    (∀ d : Nat, 1 ≤ d → neighborIds cycleGraph "A" none d = ["B"]) ∧
    neighbors cycleGraph "A" none 5 = [entB] := by
  refine ⟨?_, ?_, by decide⟩
  · intro g e rt d
    constructor
    · exact List.Nodup.filter _ (bfsAux_nodup g rt d [e] [e] (by simp))
    · intro hmem
      have h2 := (List.mem_filter.mp hmem).2
      exact absurd rfl (of_decide_eq_true h2)
  · intro d hd
    rcases d with _ | (_ | k)
    · omega
    · decide
    · show (bfsAux cycleGraph none (k + 2) ["A"] ["A"]).filter _ = ["B"]
      have h2 : bfsAux cycleGraph none (k + 2) ["A"] ["A"] =
          bfsAux cycleGraph none k [] ["A", "B"] := rfl
      rw [h2, bfsAux_nil_frontier]
      decide

/-- Witness for C4 on the cyclic two-node graph at depth five. -/
theorem c4_neighbors_witness :
    ((neighborIds cycleGraph "A" none 5).Nodup ∧
      "A" ∉ neighborIds cycleGraph "A" none 5) ∧
    (1 ≤ 5 ∧ neighborIds cycleGraph "A" none 5 = ["B"]) ∧
    neighbors cycleGraph "A" none 5 = [entB] :=
  ⟨c4_neighbors_spec.1 cycleGraph "A" none 5,
   ⟨by decide, c4_neighbors_spec.2.1 5 (by decide)⟩,
   c4_neighbors_spec.2.2⟩

/-- Claim C5: with an unbuilt Embedding Store or a failing embedding
function, retrieve still returns a RetrievalResult whose chunk list is
empty while the graph-derived entities and relations are intact, and
the turn keeps going: it completes when prompt build and generation
succeed, whereas a prompt-build or LLM failure (after retries) is what
drives the turn to Failed. -/
theorem c5_retrieval_degrades (store : Option EmbeddingStore)
    (embed : String → Except EmbedError (List ℚ)) (g : KnowledgeGraph)
    (q : String) (topK topN : Nat)
    (h : store = none ∨ embed q = .error .failure) :
    (retrieve store embed g q topK topN).chunks = [] ∧
    (retrieve store embed g q topK topN).entities =
      graphEntityRetrieve g q topN ∧
    (retrieve store embed g q topK topN).relations =
      graphRelations g (graphEntityRetrieve g q topN) ∧
    (∀ promptOf attempt rb (p s : String),
      promptOf (retrieve store embed g q topK topN) = .ok p →
      runLLM attempt 0 rb = .ok s →
      (runTurn store embed g q topK topN promptOf attempt rb).getLast? =
        some .Completed) ∧
    (∀ promptOf attempt rb (e : PromptError),
      promptOf (retrieve store embed g q topK topN) = .error e →
      (runTurn store embed g q topK topN promptOf attempt rb).getLast? =
        some .Failed) ∧
    (∀ promptOf attempt rb (p : String) (e : LLMError),
      promptOf (retrieve store embed g q topK topN) = .ok p →
      runLLM attempt 0 rb = .error e →
      (runTurn store embed g q topK topN promptOf attempt rb).getLast? =
        some .Failed) := by
  refine ⟨?_, by simp [retrieve], by simp [retrieve], ?_, ?_, ?_⟩
  · rcases h with h | h
    · subst h
      cases hq : embed q with
      | error e => simp [retrieve, hq]
      | ok emb => simp [retrieve, hq, search]
    · simp [retrieve, h]
  · intro promptOf attempt rb p s hp hs
    have ht : turnTrace (promptOf (retrieve store embed g q topK topN)) attempt rb =
        [.Idle, .Retrieving, .Assembling, .Prompting, .Generating, .Completed] := by
      simp [turnTrace, hp, hs]
    simp [runTurn, ht]
  · intro promptOf attempt rb e hp
    have ht : turnTrace (promptOf (retrieve store embed g q topK topN)) attempt rb =
        [.Idle, .Retrieving, .Assembling, .Prompting, .Failed] := by
      simp [turnTrace, hp]
    simp [runTurn, ht]
  · intro promptOf attempt rb p e hp he
    have ht : turnTrace (promptOf (retrieve store embed g q topK topN)) attempt rb =
        [.Idle, .Retrieving, .Assembling, .Prompting, .Generating, .Failed] := by
      simp [turnTrace, hp, he]
    simp [runTurn, ht]

/-- Witness for C5: an unbuilt store with a succeeding embedder degrades
to an empty chunk list and the turn still completes. -/
theorem c5_retrieval_witness :
    ((none : Option EmbeddingStore) = none ∨
      (fun _ : String => (Except.ok [] : Except EmbedError (List ℚ))) "A" =
        .error .failure) ∧
    (retrieve none (fun _ => .ok []) cycleGraph "A" 3 2).chunks = [] ∧
    (runTurn none (fun _ => .ok []) cycleGraph "A" 3 2
        (fun _ => .ok "prompt") (fun _ => .ok "reply") 0).getLast? =
      some .Completed := by
  refine ⟨Or.inl rfl, ?_, ?_⟩
  · exact (c5_retrieval_degrades none (fun _ => .ok []) cycleGraph "A" 3 2
      (Or.inl rfl)).1
  · exact (c5_retrieval_degrades none (fun _ => .ok []) cycleGraph "A" 3 2
      (Or.inl rfl)).2.2.2.1 (fun _ => .ok "prompt") (fun _ => .ok "reply") 0
      "prompt" "reply" rfl rfl

/-- Claim C6: no event moves a turn out of Failed; every turn trace is a
path of the state machine starting at Idle; a session whose last turn
failed still accepts the next message, which runs a fresh turn that
completes when its stages succeed; and an LLM client timing out twice
against a retry budget of one ends the turn in Failed. -/
theorem c6_failed_terminal :
    (∀ e : TurnEvent, turnStep .Failed e = none) ∧
    (∀ (pr : Except PromptError String) attempt rb,
      (turnTrace pr attempt rb).head? = some .Idle ∧
      List.Chain' (fun a b => ∃ ev, turnStep a ev = some b)
        (turnTrace pr attempt rb)) ∧
    (∀ (s : SessionState) (t : List TurnState)
        (pr : Except PromptError String) attempt rb (p out : String),
      s.turnTraces.getLast? = some t → t.getLast? = some .Failed →
      pr = .ok p → runLLM attempt 0 rb = .ok out →
        (sessionSendMessage s pr attempt rb).turnTraces.getLast? =
          some (turnTrace pr attempt rb) ∧
        (turnTrace pr attempt rb).getLast? = some .Completed) ∧
    (runLLM (fun _ => .error .timeout) 0 1 = .error .timeout ∧
      (turnTrace (.ok "p") (fun _ => .error .timeout) 1).getLast? =
        some .Failed) := by
  refine ⟨?_, ?_, ?_, rfl, rfl⟩
  · intro e
    cases e <;> rfl
  · intro pr attempt rb
    constructor
    · cases pr <;> rfl
    · cases pr with
      | error e =>
        have ht : turnTrace (.error e) attempt rb =
            [.Idle, .Retrieving, .Assembling, .Prompting, .Failed] := by
          simp [turnTrace]
        rw [ht]
        simp only [List.chain'_cons, List.chain'_singleton, and_true]
        exact ⟨⟨.userMessage, rfl⟩, ⟨.retrievalDone, rfl⟩,
          ⟨.contextAssembled, rfl⟩, ⟨.promptTooLarge, rfl⟩⟩
      | ok p =>
        cases hll : runLLM attempt 0 rb with
        | ok s =>
          have ht : turnTrace (.ok p) attempt rb =
              [.Idle, .Retrieving, .Assembling, .Prompting, .Generating,
                .Completed] := by
            simp [turnTrace, hll]
          rw [ht]
          simp only [List.chain'_cons, List.chain'_singleton, and_true]
          exact ⟨⟨.userMessage, rfl⟩, ⟨.retrievalDone, rfl⟩,
            ⟨.contextAssembled, rfl⟩, ⟨.promptBuilt, rfl⟩,
            ⟨.llmResponded, rfl⟩⟩
        | error e =>
          have ht : turnTrace (.ok p) attempt rb =
              [.Idle, .Retrieving, .Assembling, .Prompting, .Generating,
                .Failed] := by
            simp [turnTrace, hll]
          rw [ht]
          simp only [List.chain'_cons, List.chain'_singleton, and_true]
          exact ⟨⟨.userMessage, rfl⟩, ⟨.retrievalDone, rfl⟩,
            ⟨.contextAssembled, rfl⟩, ⟨.promptBuilt, rfl⟩,
            ⟨.llmFailed, rfl⟩⟩
  · intro s t pr attempt rb p out _ _ hpr hll
    subst hpr
    constructor
    · simp [sessionSendMessage]
    · have ht : turnTrace (.ok p) attempt rb =
          [.Idle, .Retrieving, .Assembling, .Prompting, .Generating,
            .Completed] := by
        simp [turnTrace, hll]
      rw [ht]
      rfl

/-- Witness for C6: a session whose only turn failed accepts the next
message and that turn completes. -/
theorem c6_failed_terminal_witness :
    (SessionState.mk [[TurnState.Idle, .Retrieving, .Assembling, .Prompting,
        .Generating, .Failed]]).turnTraces.getLast? =
      some [TurnState.Idle, .Retrieving, .Assembling, .Prompting,
        .Generating, .Failed] ∧
    ([TurnState.Idle, .Retrieving, .Assembling, .Prompting, .Generating,
        .Failed].getLast? = some .Failed) ∧
    (Except.ok "p" : Except PromptError String) = .ok "p" ∧
    runLLM (fun _ => .ok "out") 0 1 = .ok "out" ∧
    (sessionSendMessage
        (SessionState.mk [[TurnState.Idle, .Retrieving, .Assembling,
          .Prompting, .Generating, .Failed]])
        (.ok "p") (fun _ => .ok "out") 1).turnTraces.getLast? =
      some (turnTrace (.ok "p") (fun _ => .ok "out") 1) ∧
    (turnTrace (.ok "p") (fun _ => .ok "out") 1).getLast? = some .Completed := by
  refine ⟨rfl, rfl, rfl, rfl, ?_, ?_⟩
  · exact (c6_failed_terminal.2.2.1
      (SessionState.mk [[TurnState.Idle, .Retrieving, .Assembling, .Prompting,
        .Generating, .Failed]])
      [TurnState.Idle, .Retrieving, .Assembling, .Prompting, .Generating,
        .Failed]
      (.ok "p") (fun _ => .ok "out") 1 "p" "out" rfl rfl rfl rfl).1
  · exact (c6_failed_terminal.2.2.1
      (SessionState.mk [[TurnState.Idle, .Retrieving, .Assembling, .Prompting,
        .Generating, .Failed]])
      [TurnState.Idle, .Retrieving, .Assembling, .Prompting, .Generating,
        .Failed]
      (.ok "p") (fun _ => .ok "out") 1 "p" "out" rfl rfl rfl rfl).2

/-- Counterexample to claim C1 as stated: the frontend does not post the
chat turn to /api/chat; api.sendChat posts it to /api/chat/chat. -/
theorem c1_path_counterexample :
    (sendChat ⟨"hello", none⟩).path ≠ "/api/chat" ∧
    (sendChat ⟨"hello", none⟩).path = "/api/chat/chat" :=
  ⟨by decide, rfl⟩

/-- Claim C1 (amended): the serialized chat request body is content
alone, or content plus chat_id exactly when a nonempty session id is
passed; the request is a POST to /api/chat/chat; and the chat pages
consume the content, quote, session_id and session_uuid fields of the
response. -/
theorem c1_chat_request_shape :
    (∀ (text : String) (chatId : Option String),
      (sendChatToBackend text chatId).method = "POST" ∧
      (sendChatToBackend text chatId).path = "/api/chat/chat" ∧
      (sendChatToBackend text chatId).body.content = text ∧
      (bodyKeys (sendChatToBackend text chatId).body = ["content", "chat_id"] ∨
        bodyKeys (sendChatToBackend text chatId).body = ["content"]) ∧
      ((sendChatToBackend text chatId).body.chat_id.isSome = true ↔
        ∃ c, chatId = some c ∧ c.isEmpty = false)) ∧
    (∀ (inp cs : String) (ids : List String) (resp : ChatResponse)
        (req : ChatRequest) (msg : AssistantMessage) (ns : Option String),
      handleSendMessage inp (some cs) ids resp = some (req, msg, ns) →
        req.method = "POST" ∧ req.path = "/api/chat/chat" ∧
        req.body = ⟨inp, some cs⟩ ∧
        msg.content = resp.content ∧ msg.quote = resp.quote) ∧
    (∀ (inp cs : String) (resp : ChatResponse) (req : ChatRequest)
        (reply sid : String),
      handleSendMessageV2 inp (some cs) resp = some (req, reply, sid) →
        req = sendChatToBackend inp (some cs) ∧
        (∀ c : String, resp.content = some c → c.isEmpty = false → reply = c) ∧
        (resp.content = none → reply = "No response.") ∧
        (∀ u : String, resp.session_uuid = some u → u.isEmpty = false →
          sid = u) ∧
        (resp.session_uuid = none → sid = cs)) := by
  refine ⟨?_, ?_, ?_⟩
  · intro text chatId
    cases chatId with
    | none => simp [sendChatToBackend, sendChat, bodyKeys, sendChatPath]
    | some c =>
      cases hc : c.isEmpty with
      | true =>
        simp [sendChatToBackend, sendChat, bodyKeys, sendChatPath, hc]
      | false =>
        simp [sendChatToBackend, sendChat, bodyKeys, sendChatPath, hc]
  · intro inp cs ids resp req msg ns h
    by_cases h1 : (trimStr inp).isEmpty
    · simp [handleSendMessage, h1] at h
    · by_cases h2 : cs.isEmpty
      · simp [handleSendMessage, h1, h2] at h
      · simp [handleSendMessage, h1, h2] at h
        obtain ⟨hreq, hmsg, _⟩ := h
        subst hreq
        subst hmsg
        exact ⟨rfl, rfl, rfl, rfl, rfl⟩
  · intro inp cs resp req reply sid h
    by_cases h1 : (trimStr inp).isEmpty
    · simp [handleSendMessageV2, h1] at h
    · by_cases h2 : cs.isEmpty
      · simp [handleSendMessageV2, h1, h2] at h
      · simp [handleSendMessageV2, h1, h2] at h
        obtain ⟨hreq, hreply, hsid⟩ := h
        subst hreq
        refine ⟨rfl, ?_, ?_, ?_, ?_⟩
        · intro c hcon hce
          rw [← hreply, hcon]
          simp [hce]
        · intro hcon
          rw [← hreply, hcon]
        · intro u huu hue
          rw [← hsid, huu]
          simp [hue]
        · intro huu
          rw [← hsid, huu]

/-- Witness for C1 (amended) at a concrete message, session, and
response. -/
theorem c1_chat_request_witness :
    ((sendChatToBackend "make a quote" (some "s1")).path = "/api/chat/chat" ∧
      bodyKeys (sendChatToBackend "make a quote" (some "s1")).body =
        ["content", "chat_id"]) ∧
    (handleSendMessage "hi" (some "s1") []
        ⟨some "ok", some "s2", some "s3", some "q", none⟩ =
      some (⟨"POST", "/api/chat/chat", "hi", some "s1"⟩,
        ⟨some "ok", some "q"⟩, some "s2") ∧
      (⟨some "ok", some "q"⟩ : AssistantMessage).content = some "ok") ∧
    (handleSendMessageV2 "hi" (some "s1")
        ⟨some "ok", none, some "s3", none, none⟩ =
      some (sendChatToBackend "hi" (some "s1"), "ok", "s3") ∧
      ("s3" : String) = "s3") := by
  refine ⟨⟨?_, ?_⟩, ⟨by decide, ?_⟩, ⟨by decide, ?_⟩⟩
  · exact ((c1_chat_request_shape.1 "make a quote" (some "s1")).2.1)
  · rcases (c1_chat_request_shape.1 "make a quote" (some "s1")).2.2.2.1 with
      h | h
    · exact h
    · exact absurd h (by decide)
  · exact ((c1_chat_request_shape.2.1 "hi" "s1" []
      ⟨some "ok", some "s2", some "s3", some "q", none⟩
      ⟨"POST", "/api/chat/chat", "hi", some "s1"⟩
      ⟨some "ok", some "q"⟩ (some "s2") (by decide)).2.2.2.1)
  · exact (c1_chat_request_shape.2.2 "hi" "s1"
      ⟨some "ok", none, some "s3", none, none⟩
      (sendChatToBackend "hi" (some "s1")) "ok" "s3" (by decide)).2.2.2.1
      "s3" rfl (by decide)

/-- Counterexample to claim C7 as stated: in the second apiFetch variant
the relative path /api/auth/me stays a frontend-local route and is not
resolved against the backend base URL. -/
theorem c7_local_route_counterexample :
    apiFetchUrlV2 none "/api/auth/me" = "/api/auth/me" ∧
    apiFetchUrlV2 none "/api/auth/me" ≠ apiBaseV2 none ++ "/api/auth/me" := by
  constructor
  · decide
  · decide

/-- Claim C7 (amended): the first apiFetch variant resolves every
relative path against the backend base; the second variant does so only
for relative paths outside /api/, and keeps /api/ paths frontend-local. -/
theorem c7_relative_path_routing (env : Option String) (path : String)
    (h : startsWithStr path "http" = false) :
    apiFetchUrlV1 env path = getBaseUrl env ++ dropLeadingSlashes path ∧
    (startsWithStr path "/api/" = false →
      apiFetchUrlV2 env path = apiBaseV2 env ++ path) ∧
    (startsWithStr path "/api/" = true → apiFetchUrlV2 env path = path) := by
  refine ⟨?_, ?_, ?_⟩
  · simp [apiFetchUrlV1, h]
  · intro h2
    simp [apiFetchUrlV2, h, h2]
  · intro h2
    simp [apiFetchUrlV2, h, h2]

/-- Witness for C7 (amended) on the relative path /auth/me. -/
theorem c7_routing_witness :
    startsWithStr "/auth/me" "http" = false ∧
    apiFetchUrlV1 none "/auth/me" =
      getBaseUrl none ++ dropLeadingSlashes "/auth/me" ∧
    apiFetchUrlV2 none "/auth/me" = apiBaseV2 none ++ "/auth/me" := by
  refine ⟨by decide, ?_, ?_⟩
  · exact (c7_relative_path_routing none "/auth/me" (by decide)).1
  · exact (c7_relative_path_routing none "/auth/me" (by decide)).2.1 (by decide)

/-- Claim C8: the fallback branch of the quote-generation route rejects
with status 429 and the quote-limit error exactly when the body has
userRole normal and quotesUsed at least five; every other body yields
the success payload carrying a generated quote. -/
theorem c8_fallback_limit_iff (prompt userRole : String) (quotesUsed : Int) :
    (quotesGenerateFallback prompt userRole quotesUsed =
        .limitReached 429 "Quote limit reached" 5 ↔
      (userRole = "normal" ∧ 5 ≤ quotesUsed)) ∧
    (¬(userRole = "normal" ∧ 5 ≤ quotesUsed) →
      quotesGenerateFallback prompt userRole quotesUsed =
        .success 200 "Quote generated successfully"
          (mkFallbackQuote prompt userRole) (quotesUsed + 1)) := by
  by_cases h : userRole = "normal" ∧ 5 ≤ quotesUsed
  · exact ⟨by simp [quotesGenerateFallback, h], fun hn => absurd h hn⟩
  · constructor
    · simp [quotesGenerateFallback, h]
    · intro _
      simp [quotesGenerateFallback, h]

/-- Witness for C8: a normal user at the limit is rejected, a premium
user is served. -/
theorem c8_fallback_witness :
    quotesGenerateFallback "logo design" "normal" 5 =
      .limitReached 429 "Quote limit reached" 5 ∧
    ¬("premium" = "normal" ∧ (5 : Int) ≤ 0) ∧
    quotesGenerateFallback "logo design" "premium" 0 =
      .success 200 "Quote generated successfully"
        (mkFallbackQuote "logo design" "premium") 1 := by
  refine ⟨?_, by decide, ?_⟩
  · exact (c8_fallback_limit_iff "logo design" "normal" 5).1.mpr
      ⟨rfl, by norm_num⟩
  · exact (c8_fallback_limit_iff "logo design" "premium" 0).2 (by decide)

theorem foldl_add_amount (l : List QuoteItem) :
    ∀ n : Nat, l.foldl (fun s i => s + i.amount) n =
      n + (l.map QuoteItem.amount).sum := by
  induction l with
  | nil => intro n; simp
  | cons i rest ih =>
    intro n
    simp only [List.foldl_cons, List.map_cons, List.sum_cons]
    rw [ih]
    omega

/-- Claim C9: every fallback quote has subtotal the sum of its item
amounts, tax the rounding of a tenth of the subtotal, total their sum,
a watermark exactly for the normal role and editability exactly for the
premium role; a website prompt concretely yields subtotal 3800 and tax
380. -/
theorem c9_fallback_quote_numbers (prompt userRole : String) :
    (mkFallbackQuote prompt userRole).subtotal =
      ((mkFallbackQuote prompt userRole).items.map QuoteItem.amount).sum ∧
    (mkFallbackQuote prompt userRole).tax =
      jsRound (((mkFallbackQuote prompt userRole).subtotal : ℚ) * (1/10)) ∧
    (mkFallbackQuote prompt userRole).total =
      ((mkFallbackQuote prompt userRole).subtotal : Int) +
        (mkFallbackQuote prompt userRole).tax ∧
    ((mkFallbackQuote prompt userRole).has_watermark = true ↔
      userRole = "normal") ∧
    ((mkFallbackQuote prompt userRole).can_edit = true ↔
      userRole = "premium") ∧
    (mkFallbackQuote "need a website" "normal").subtotal = 3800 ∧
    (mkFallbackQuote "need a website" "normal").tax = 380 := by
  refine ⟨?_, rfl, rfl, ?_, ?_, by decide, ?_⟩
  · show (generateQuoteItems prompt).foldl (fun s i => s + i.amount) 0 = _
    rw [foldl_add_amount]
    simp [mkFallbackQuote]
  · simp [mkFallbackQuote]
  · simp [mkFallbackQuote]
  · have hsub : (generateQuoteItems "need a website").foldl
        (fun s i => s + i.amount) 0 = 3800 := by decide
    show jsRound _ = 380
    rw [show (((((generateQuoteItems "need a website").foldl
        (fun s i => s + i.amount) 0 : Nat) : ℚ)) * (1/10)) = (380 : ℚ) from by
      rw [hsub]; norm_num]
    unfold jsRound
    refine Int.floor_eq_iff.mpr ⟨by norm_num, by norm_num⟩

/-- Witness for C9 at a concrete prompt and role. -/
theorem c9_fallback_quote_witness :
    (mkFallbackQuote "need a website" "normal").subtotal = 3800 ∧
    (mkFallbackQuote "need a website" "normal").tax = 380 ∧
    ((mkFallbackQuote "need a website" "normal").has_watermark = true ↔
      ("normal" : String) = "normal") :=
  ⟨(c9_fallback_quote_numbers "need a website" "normal").2.2.2.2.2.1,
   (c9_fallback_quote_numbers "need a website" "normal").2.2.2.2.2.2,
   (c9_fallback_quote_numbers "need a website" "normal").2.2.2.1⟩

/-- Claim C10: after any pageView event the page statistics are sorted
by non-increasing views with at most ten entries and at most ten recent
visitors with the newest in front; the demo updater, the stats reset
and the connection handlers all preserve these bounds. -/
theorem c10_visitor_data_bounds (v : VisitorData)
    (page userAgent socketId location : String) (now : Nat) (vis : Visitor)
    (active : Nat) :
    visitorInv (handlePageView v page userAgent socketId location now) ∧
    (handlePageView v page userAgent socketId location now).recentVisitors.head? =
      some ⟨socketId, now, location, userAgent, page⟩ ∧
    (visitorInv v → visitorInv (demoTick v vis)) ∧
    (demoTick v vis).recentVisitors.head? = some vis ∧
    visitorInv (resetStats active) ∧
    (visitorInv v → visitorInv (setActiveVisitors v active)) := by
  refine ⟨⟨?_, ?_, ?_⟩, ?_, ?_, ?_, ?_, ?_⟩
  · exact List.Pairwise.sublist (List.take_sublist _ _)
      (List.sorted_insertionSort pageGe (bumpPage v.topPages page))
  · simp only [handlePageView, List.length_take]
    omega
  · simp only [handlePageView, List.length_take]
    omega
  · rfl
  · intro hv
    refine ⟨hv.1, hv.2.1, ?_⟩
    simp only [demoTick, List.length_take]
    omega
  · rfl
  · exact ⟨List.Pairwise.nil, by simp [resetStats], by simp [resetStats]⟩
  · intro hv
    exact ⟨hv.1, hv.2.1, hv.2.2⟩

/-- Witness for C10 starting from the empty visitor store. -/
theorem c10_visitor_witness :
    visitorInv (handlePageView ⟨0, 0, 0, 0, "0:00", [], []⟩ "/" "UA" "sock"
      "US" 0) ∧
    visitorInv (⟨0, 0, 0, 0, "0:00", [], []⟩ : VisitorData) ∧
    visitorInv (demoTick ⟨0, 0, 0, 0, "0:00", [], []⟩ ⟨"d", 1, "US", "UA", "/"⟩) := by
  have hv : visitorInv (⟨0, 0, 0, 0, "0:00", [], []⟩ : VisitorData) :=
    ⟨List.Pairwise.nil, by decide, by decide⟩
  exact ⟨(c10_visitor_data_bounds ⟨0, 0, 0, 0, "0:00", [], []⟩ "/" "UA" "sock"
      "US" 0 ⟨"d", 1, "US", "UA", "/"⟩ 0).1,
    hv,
    (c10_visitor_data_bounds ⟨0, 0, 0, 0, "0:00", [], []⟩ "/" "UA" "sock"
      "US" 0 ⟨"d", 1, "US", "UA", "/"⟩ 0).2.2.1 hv⟩

end Maq
